import Mathlib

/-!
Verification of the disk-image construction pipeline of `build-disk-image.py`
(the CORE of the repository per its specification).

The script is a strictly sequential orchestration of external commands
(fallocate, losetup, parted, mkfs.fat, mkfs.ext4, tune2fs, mount, umount,
gunzip|cpio, qemu-img) guarded by Python try/finally blocks.  We embed it
shallowly: every externally visible side effect is an `Event`, every Python
exception is an `Err`, and the outcome of each external command is an oracle
recorded in an `Env`.  A run of the script is then a pure value of type
`RunResult α`: the result (`Except Err α`, mirroring normal return vs. raised
exception) together with the ordered trace of attempted side effects.

The embedding mirrors the source line by line; in particular Python's
try/finally semantics — where an exception raised by the `finally` block
REPLACES an exception raised by the body — is modelled exactly by
`RunResult.tryFinally`.
-/

deriving instance DecidableEq for Except

/-- Externally visible side effects of `build-disk-image.py`, one constructor
per external command or filesystem mutation the script attempts.  The payload
strings are the data the script passes to the command. -/
inductive Event where
  /-- `fallocate -l <size> <image_path>` (line 146); payload is the size string. -/
  | createImage (size : String)
  /-- `losetup --find --partscan --show <image_path>` (line 152). -/
  | attachLoop
  /-- `parted -s <loop> mklabel gpt` (line 42). -/
  | mklabelGpt
  /-- `parted -s <loop> mkpart primary fat32 <start> <stop>` (line 45). -/
  | mkpartEfi (start stop : String)
  /-- `parted -s <loop> set 1 boot on` (line 49). -/
  | setBootFlag
  /-- `parted -s <loop> set 1 esp on` (line 50). -/
  | setEspFlag
  /-- `parted -s <loop> mkpart primary ext4 <start> 100%` (line 53). -/
  | mkpartRoot (start stop : String)
  /-- `time.sleep(2)` after partitioning (line 58). -/
  | sleepPartscan
  /-- `mkfs.fat -F32 -n EFI -i DEADBEEF <part1>` (line 168). -/
  | formatFat
  /-- `mkfs.ext4 -F -L ROOT <part2>` (line 171). -/
  | formatExt4
  /-- `tune2fs -U <uuid> <part2>` (line 173). -/
  | setExt4Uuid
  /-- `mount <part1> <efi_mount_dir>` (line 78). -/
  | mountBoot
  /-- `os.makedirs(<mount>/EFI/Boot)` (line 82). -/
  | makeBootDir
  /-- `shutil.copy2(os_loader, <mount>/<dest>)` (line 93); payload is the
  destination path relative to the mounted EFI partition. -/
  | copyLoader (dest : String)
  /-- `umount <efi_mount_dir>` (line 96). -/
  | umountBoot
  /-- `mount <part2> <root_mount_dir>` (line 107). -/
  | mountRoot
  /-- `gunzip -c <layer> | cpio -idm` in the mounted root (line 120); payload
  is the layer archive path. -/
  | extractLayer (layer : String)
  /-- `umount <root_mount_dir>` (line 127). -/
  | umountRoot
  /-- `losetup -d <loop>` (line 183). -/
  | detachLoop
  /-- `qemu-img convert -O <format> <image_path> <target_image>` (line 192). -/
  | convertImage (format : String)
deriving DecidableEq, Repr

/-- Python exceptions the script can raise, with their message strings. -/
inductive Err where
  /-- `ValueError` (lines 89, 134). -/
  | valueError (msg : String)
  /-- `FileExistsError` (line 137). -/
  | fileExistsError (msg : String)
  /-- `RuntimeError` (lines 64, 66, 148, 161, 197). -/
  | runtimeError (msg : String)
  /-- `subprocess.CalledProcessError` escaping a `check=True` call; payload is
  the failing command. -/
  | calledProcessError (cmd : String)
  /-- `OSError` from `shutil.copy2` (line 93). -/
  | osError (msg : String)
deriving DecidableEq, Repr

/-- Outcome of one run: the returned-or-raised result together with the
ordered trace of attempted side effects. -/
structure RunResult (α : Type) where
  res : Except Err α
  trace : List Event

/-- Sequencing: Python statements run in order, and a raised exception skips
the rest of the suite (events already performed stay in the trace). -/
def RunResult.bind {α β : Type} (x : RunResult α) (f : α → RunResult β) : RunResult β :=
  match x.res with
  | .ok a => ⟨(f a).res, x.trace ++ (f a).trace⟩
  | .error e => ⟨.error e, x.trace⟩

instance : Monad RunResult where
  pure a := ⟨.ok a, []⟩
  bind := RunResult.bind

/-- Python `try ... finally ...`: the finally suite always runs; an exception
raised by the finally suite replaces the body's exception. -/
def RunResult.tryFinally {α : Type} (body : RunResult α) (fin : RunResult Unit) :
    RunResult α :=
  ⟨match body.res, fin.res with
    | .ok a, .ok _ => .ok a
    | .ok _, .error e => .error e
    | .error e, .ok _ => .error e
    | .error _, .error e2 => .error e2,
   body.trace ++ fin.trace⟩

/-- Python `try ... except subprocess.CalledProcessError as e: ...`: only that
exception class is caught; everything else propagates. -/
def RunResult.tryCatchCPE {α : Type} (body : RunResult α) (handler : String → RunResult α) :
    RunResult α :=
  match body.res with
  | .error (.calledProcessError c) => ⟨(handler c).res, body.trace ++ (handler c).trace⟩
  | _ => body

/-- Raising an exception. -/
def throwErr {α : Type} (e : Err) : RunResult α := ⟨.error e, []⟩

/-- An external command run with `check=True`: the attempt is always recorded;
if the environment says it fails, `CalledProcessError` is raised. -/
def runCmd (ok : Bool) (ev : Event) (cmd : String) : RunResult Unit :=
  ⟨if ok then .ok () else .error (.calledProcessError cmd), [ev]⟩

/-- A side effect that cannot fail in the model (directory creation, sleep). -/
def emitEvent (ev : Event) : RunResult Unit := ⟨.ok (), [ev]⟩

/-- `shutil.copy2`: failure raises `OSError`. -/
def copyFile (ok : Bool) (dest : String) : RunResult Unit :=
  ⟨if ok then .ok () else .error (.osError "copy2 failed"), [Event.copyLoader dest]⟩

/-- Oracle for everything outside the script: whether the target path already
exists, which external commands succeed, which partition device nodes appear,
the loop device name `losetup` prints, and the `*.cpio.gz` files `rglob` finds
under the layers directory. -/
structure Env where
  imagePathExists : Bool
  fallocateOk : Bool
  losetupOk : Bool
  loopDevice : String
  mklabelOk : Bool
  mkpartEfiOk : Bool
  setBootOk : Bool
  setEspOk : Bool
  mkpartRootOk : Bool
  part1Exists : Bool
  part2Exists : Bool
  mkfsFatOk : Bool
  mkfsExt4Ok : Bool
  tune2fsOk : Bool
  mountBootOk : Bool
  copyLoaderOk : Bool
  umountBootOk : Bool
  mountRootOk : Bool
  layersDirExists : Bool
  layerFiles : List String
  extractOk : String → Bool
  umountRootOk : Bool
  detachOk : Bool
  convertOk : Bool

/-- Python `sub in s` on strings: `p` occurs contiguously in `l`
(the empty pattern occurs in everything, as in Python). -/
def containsSeq (p : List Char) : List Char → Bool
  | [] => p.isEmpty
  | c :: cs => p.isPrefixOf (c :: cs) || containsSeq p cs

/-- Python `sub in s` lifted to `String` via the character lists. -/
def strContains (s sub : String) : Bool := containsSeq sub.data s.data

/-- Characters of the final path component, reading the path reversed: stop at
the first slash seen from the end. -/
def takeUntilSlash : List Char → List Char
  | [] => []
  | c :: cs => if c = '/' then [] else c :: takeUntilSlash cs

/-- Python `Path.name` on a layer path: the basename, i.e. the text after the
last `/`.  The source tests membership in `layer.name` (line 115) while it
sorts and extracts the full paths. -/
def baseName (p : String) : String := ⟨(takeUntilSlash p.data.reverse).reverse⟩

/-- Lexicographic comparison of character lists: the order Python uses to
compare path strings (code point by code point, shorter run first). -/
def lexLt : List Char → List Char → Bool
  | [], [] => false
  | [], _ :: _ => true
  | _ :: _, [] => false
  | a :: as, b :: bs => if a < b then true else if b < a then false else lexLt as bs

/-- Python `<` on path strings. -/
def strLt (a b : String) : Bool := lexLt a.data b.data

/-- Insertion step of the sort used to model Python `sorted`. -/
def insertSorted (x : String) : List String → List String
  | [] => [x]
  | y :: ys => if strLt y x then y :: insertSorted x ys else x :: y :: ys

/-- Python `sorted` on path strings: stable sort in lexicographic order. -/
def sortStrings : List String → List String
  | [] => []
  | x :: xs => insertSorted x (sortStrings xs)

/-- Embedding of `create_partitions(loop_device, efi_start, efi_end_str)`
(lines 32-68): GPT label, EFI partition `[efi_start, efi_end_str]`, boot and
esp flags, ext4 partition `[efi_end_str, 100%]`, fixed sleep, then existence
checks of the two partition device nodes, raising `RuntimeError` naming the
missing node.  Returns the two device paths. -/
def create_partitions (env : Env) (loop_device efi_start efi_end_str : String) :
    RunResult (String × String) := do
  runCmd env.mklabelOk Event.mklabelGpt "parted mklabel gpt"
  runCmd env.mkpartEfiOk (Event.mkpartEfi efi_start efi_end_str) "parted mkpart primary fat32"
  runCmd env.setBootOk Event.setBootFlag "parted set 1 boot on"
  runCmd env.setEspOk Event.setEspFlag "parted set 1 esp on"
  runCmd env.mkpartRootOk (Event.mkpartRoot efi_end_str "100%") "parted mkpart primary ext4"
  emitEvent Event.sleepPartscan
  let part1 := loop_device ++ "p1"
  let part2 := loop_device ++ "p2"
  if env.part1Exists = false then
    throwErr (Err.runtimeError ("Expected partition device " ++ part1 ++ " does not exist."))
  else if env.part2Exists = false then
    throwErr (Err.runtimeError ("Expected partition device " ++ part2 ++ " does not exist."))
  else
    pure (part1, part2)

/-- Embedding of `fill_boot_partition(part1, os_loader, arch)` (lines 71-97):
mount the EFI partition (outside the try block), then inside try: create
`EFI/Boot`, select the loader file name from the architecture (raising
`ValueError` for any other value), copy the loader; finally: umount.  The
temporary mount directory is modelled as the root of the partition, so the
copy destination is the partition-relative path. -/
def fill_boot_partition (env : Env) (part1 os_loader arch : String) : RunResult Unit := do
  runCmd env.mountBootOk Event.mountBoot "mount"
  RunResult.tryFinally
    (do
      emitEvent Event.makeBootDir
      let efi_file ←
        if arch = "x86_64" then pure "BOOTX64.EFI"
        else if arch = "arm64" then pure "BOOTAA64.EFI"
        else throwErr (Err.valueError ("Unsupported architecture: " ++ arch))
      copyFile env.copyLoaderOk ("EFI/Boot/" ++ efi_file))
    (runCmd env.umountBootOk Event.umountBoot "umount")

/-- Inner loop of `fill_ext4_partition` (lines 113-120): walk the sorted layer
paths; skip a layer whose file name (`layer.name`, the basename — not the full
path) contains neither `noarch` nor the architecture string; extract the
others in order with `check=True`. -/
def extractLayers (env : Env) (arch : String) : List String → RunResult Unit
  | [] => pure ()
  | layer :: rest => do
    if strContains (baseName layer) "noarch" = false
        ∧ strContains (baseName layer) arch = false then
      extractLayers env arch rest
    else do
      runCmd (env.extractOk layer) (Event.extractLayer layer) "gunzip -c | cpio -idm"
      extractLayers env arch rest

/-- Embedding of `fill_ext4_partition(part2, arch)` (lines 100-128): mount the
root partition (outside the try block); inside try: if the layers directory
exists, process `sorted(rglob("*.cpio.gz"))`, else only log; finally: umount. -/
def fill_ext4_partition (env : Env) (part2 arch : String) : RunResult Unit := do
  runCmd env.mountRootOk Event.mountRoot "mount"
  RunResult.tryFinally
    (if env.layersDirExists then extractLayers env arch (sortStrings env.layerFiles)
     else pure ())
    (runCmd env.umountRootOk Event.umountRoot "umount")

/-- The size-validation message of line 134. -/
def sizeErrMsg : String :=
  "Disk size must be greater than EFI size plus 1 MiB for proper partition alignment."

/-- Body of the main `try` block of `new_efi_boot_disk` (lines 163-179):
partition the loop device, format both partitions (FAT32 with the fixed
volume id, ext4 with label then fixed UUID via tune2fs), install the boot
payload, populate the root filesystem. -/
def mainBuildSteps (env : Env) (loop_device efi_start efi_end_str os_loader arch : String) :
    RunResult Unit := do
  let parts ← create_partitions env loop_device efi_start efi_end_str
  runCmd env.mkfsFatOk Event.formatFat "mkfs.fat"
  runCmd env.mkfsExt4Ok Event.formatExt4 "mkfs.ext4"
  runCmd env.tune2fsOk Event.setExt4Uuid "tune2fs"
  fill_boot_partition env parts.1 os_loader arch
  fill_ext4_partition env parts.2 arch

/-- Optional final conversion (lines 187-197): runs only when both a target
image path and a target format are supplied (Python truthiness of the two
optional arguments); wraps `CalledProcessError` into `RuntimeError`. -/
def convertStage (env : Env) (target_image target_format : Option String) : RunResult Unit :=
  match target_image, target_format with
  | some _, some tf =>
    RunResult.tryCatchCPE
      (runCmd env.convertOk (Event.convertImage tf) "qemu-img convert")
      (fun c => throwErr (Err.runtimeError ("Image conversion failed: " ++ c)))
  | _, _ => pure ()

/-- Embedding of `new_efi_boot_disk(image_path, os_loader, arch, disk_size_mib,
efi_size_mib, target_image, target_format)` (lines 131-197): size validation,
path-collision check, fallocate and losetup (each wrapping
`CalledProcessError` into `RuntimeError`), then the main try block
(partitioning, formatting, boot payload, layers) whose finally detaches the
loop device, and finally the optional qemu-img conversion. -/
def new_efi_boot_disk (env : Env) (image_path os_loader arch : String)
    (disk_size_mib efi_size_mib : Int)
    (target_image target_format : Option String) : RunResult Unit := do
  if disk_size_mib ≤ efi_size_mib + 1 then
    throwErr (Err.valueError sizeErrMsg)
  else if env.imagePathExists then
    throwErr (Err.fileExistsError ("Disk image at " ++ image_path ++ " already exists."))
  else do
    let disk_size_str := toString disk_size_mib ++ "MiB"
    let efi_start := "1MiB"
    let efi_end_mib := 1 + efi_size_mib
    let efi_end_str := toString efi_end_mib ++ "MiB"
    RunResult.tryCatchCPE
      (runCmd env.fallocateOk (Event.createImage disk_size_str) "fallocate")
      (fun c => throwErr (Err.runtimeError ("Failed to create disk image: " ++ c)))
    RunResult.tryCatchCPE
      (runCmd env.losetupOk Event.attachLoop "losetup")
      (fun c => throwErr (Err.runtimeError ("Failed to set up loop device: " ++ c)))
    let loop_device := env.loopDevice
    RunResult.tryFinally
      (mainBuildSteps env loop_device efi_start efi_end_str os_loader arch)
      (runCmd env.detachOk Event.detachLoop "losetup -d")
    convertStage env target_image target_format

/-- Environment in which every external step succeeds, the target path is
fresh, the layers directory exists and is empty. -/
def envOk : Env where
  imagePathExists := false
  fallocateOk := true
  losetupOk := true
  loopDevice := "/dev/loop0"
  mklabelOk := true
  mkpartEfiOk := true
  setBootOk := true
  setEspOk := true
  mkpartRootOk := true
  part1Exists := true
  part2Exists := true
  mkfsFatOk := true
  mkfsExt4Ok := true
  tune2fsOk := true
  mountBootOk := true
  copyLoaderOk := true
  umountBootOk := true
  mountRootOk := true
  layersDirExists := true
  layerFiles := []
  extractOk := fun _ => true
  umountRootOk := true
  detachOk := true
  convertOk := true

/-- Names of the layers extracted during a run, in order. -/
def extractedNames (t : List Event) : List String :=
  t.filterMap fun e => match e with
    | Event.extractLayer n => some n
    | _ => none

/-! ### Basic lemmas about the run monad -/

theorem runCmd_trace (ok : Bool) (ev : Event) (cmd : String) :
    (runCmd ok ev cmd).trace = [ev] := rfl

theorem emitEvent_trace (ev : Event) : (emitEvent ev).trace = [ev] := rfl

theorem throwErr_trace {α : Type} (e : Err) : (throwErr e : RunResult α).trace = [] := rfl

theorem pure_trace {α : Type} (a : α) : (pure a : RunResult α).trace = [] := rfl

theorem copyFile_trace (ok : Bool) (dest : String) :
    (copyFile ok dest).trace = [Event.copyLoader dest] := rfl

theorem trace_tryFinally {α : Type} (body : RunResult α) (fin : RunResult Unit) :
    (RunResult.tryFinally body fin).trace = body.trace ++ fin.trace := rfl

theorem mem_bind_trace {α β : Type} {ev : Event} {x : RunResult α} {f : α → RunResult β}
    (h : ev ∈ (x >>= f).trace) :
    ev ∈ x.trace ∨ ∃ a, x.res = Except.ok a ∧ ev ∈ (f a).trace := by
  rcases x with ⟨res, t⟩
  cases res with
  | ok a =>
    rcases List.mem_append.mp (by simpa [Bind.bind, RunResult.bind] using h) with h | h
    · exact Or.inl h
    · exact Or.inr ⟨a, rfl, h⟩
  | error e =>
    exact Or.inl (by simpa [Bind.bind, RunResult.bind] using h)

theorem count_bind_trace {α β : Type} (ev : Event) (x : RunResult α) (f : α → RunResult β) :
    List.count ev (x >>= f).trace =
      List.count ev x.trace +
        (match x.res with
          | .ok a => List.count ev (f a).trace
          | .error _ => 0) := by
  rcases x with ⟨res, t⟩
  cases res <;> simp [Bind.bind, RunResult.bind, List.count_append]

theorem tryCatchCPE_throw_trace {α : Type} (x : RunResult α) (g : String → Err) :
    (RunResult.tryCatchCPE x (fun c => throwErr (g c))).trace = x.trace := by
  rcases x with ⟨res, t⟩
  rcases res with e | a
  · rcases e <;> simp [RunResult.tryCatchCPE, throwErr]
  · simp [RunResult.tryCatchCPE]

/-! ### Trace characterization of each pipeline stage -/

theorem mem_create_partitions_trace {env : Env} {ld s1 s2 : String} {ev : Event}
    (h : ev ∈ (create_partitions env ld s1 s2).trace) :
    ev = Event.mklabelGpt ∨ ev = Event.mkpartEfi s1 s2 ∨ ev = Event.setBootFlag ∨
    ev = Event.setEspFlag ∨ ev = Event.mkpartRoot s2 "100%" ∨ ev = Event.sleepPartscan := by
  unfold create_partitions at h
  rcases mem_bind_trace h with h | ⟨_, _, h⟩
  · rw [runCmd_trace] at h; simp at h; exact Or.inl h
  rcases mem_bind_trace h with h | ⟨_, _, h⟩
  · rw [runCmd_trace] at h; simp at h; exact Or.inr (Or.inl h)
  rcases mem_bind_trace h with h | ⟨_, _, h⟩
  · rw [runCmd_trace] at h; simp at h; exact Or.inr (Or.inr (Or.inl h))
  rcases mem_bind_trace h with h | ⟨_, _, h⟩
  · rw [runCmd_trace] at h; simp at h; exact Or.inr (Or.inr (Or.inr (Or.inl h)))
  rcases mem_bind_trace h with h | ⟨_, _, h⟩
  · rw [runCmd_trace] at h; simp at h
    exact Or.inr (Or.inr (Or.inr (Or.inr (Or.inl h))))
  rcases mem_bind_trace h with h | ⟨_, _, h⟩
  · rw [emitEvent_trace] at h; simp at h
    exact Or.inr (Or.inr (Or.inr (Or.inr (Or.inr h))))
  · split at h <;> [skip; split at h] <;> simp [throwErr_trace, pure_trace] at h

theorem mem_fill_boot_trace {env : Env} {p l arch : String} {ev : Event}
    (h : ev ∈ (fill_boot_partition env p l arch).trace) :
    ev = Event.mountBoot ∨ ev = Event.makeBootDir ∨
    (arch = "x86_64" ∧ ev = Event.copyLoader "EFI/Boot/BOOTX64.EFI") ∨
    (arch = "arm64" ∧ ev = Event.copyLoader "EFI/Boot/BOOTAA64.EFI") ∨
    ev = Event.umountBoot := by
  unfold fill_boot_partition at h
  rcases mem_bind_trace h with h | ⟨_, _, h⟩
  · rw [runCmd_trace] at h; simp at h; exact Or.inl h
  rw [trace_tryFinally, runCmd_trace] at h
  rcases List.mem_append.mp h with h | h
  · rcases mem_bind_trace h with h | ⟨_, _, h⟩
    · rw [emitEvent_trace] at h; simp at h; exact Or.inr (Or.inl h)
    · split at h
      case isTrue h64 =>
        rcases mem_bind_trace h with h | ⟨ef, hef, h⟩
        · simp [pure_trace] at h
        · simp [Pure.pure] at hef
          subst hef
          rw [copyFile_trace] at h
          simp at h
          subst h
          exact Or.inr (Or.inr (Or.inl ⟨h64, rfl⟩))
      case isFalse h64 =>
        split at h
        case isTrue ha64 =>
          rcases mem_bind_trace h with h | ⟨ef, hef, h⟩
          · simp [pure_trace] at h
          · simp [Pure.pure] at hef
            subst hef
            rw [copyFile_trace] at h
            simp at h
            subst h
            exact Or.inr (Or.inr (Or.inr (Or.inl ⟨ha64, rfl⟩)))
        case isFalse ha64 =>
          rcases mem_bind_trace h with h | ⟨ef, hef, h⟩
          · simp [throwErr_trace] at h
          · exact absurd hef (by simp [throwErr])
  · simp at h
    exact Or.inr (Or.inr (Or.inr (Or.inr h)))

theorem mem_extractLayers_trace {env : Env} {arch : String} {ls : List String} {ev : Event}
    (h : ev ∈ (extractLayers env arch ls).trace) :
    ∃ n, n ∈ ls ∧ ev = Event.extractLayer n := by
  induction ls with
  | nil => simp [extractLayers, pure_trace] at h
  | cons l rest ih =>
    unfold extractLayers at h
    split at h
    · rcases ih h with ⟨n, hn, he⟩
      exact ⟨n, List.mem_cons_of_mem _ hn, he⟩
    · rcases mem_bind_trace h with h | ⟨_, _, h⟩
      · rw [runCmd_trace] at h; simp at h
        exact ⟨l, List.mem_cons_self _ _, h⟩
      · rcases ih h with ⟨n, hn, he⟩
        exact ⟨n, List.mem_cons_of_mem _ hn, he⟩

theorem mem_fill_ext4_trace {env : Env} {p arch : String} {ev : Event}
    (h : ev ∈ (fill_ext4_partition env p arch).trace) :
    ev = Event.mountRoot ∨ (∃ n, ev = Event.extractLayer n) ∨ ev = Event.umountRoot := by
  unfold fill_ext4_partition at h
  rcases mem_bind_trace h with h | ⟨_, _, h⟩
  · rw [runCmd_trace] at h; simp at h; exact Or.inl h
  rw [trace_tryFinally, runCmd_trace] at h
  rcases List.mem_append.mp h with h | h
  · split at h
    · rcases mem_extractLayers_trace h with ⟨n, _, he⟩
      exact Or.inr (Or.inl ⟨n, he⟩)
    · simp [pure_trace] at h
  · simp at h
    exact Or.inr (Or.inr h)

theorem mem_mainBuildSteps_trace {env : Env} {ld s1 s2 l arch : String} {ev : Event}
    (h : ev ∈ (mainBuildSteps env ld s1 s2 l arch).trace) :
    ev = Event.mklabelGpt ∨ ev = Event.mkpartEfi s1 s2 ∨
    ev = Event.setBootFlag ∨ ev = Event.setEspFlag ∨
    ev = Event.mkpartRoot s2 "100%" ∨ ev = Event.sleepPartscan ∨
    ev = Event.formatFat ∨ ev = Event.formatExt4 ∨ ev = Event.setExt4Uuid ∨
    ev = Event.mountBoot ∨ ev = Event.makeBootDir ∨
    (arch = "x86_64" ∧ ev = Event.copyLoader "EFI/Boot/BOOTX64.EFI") ∨
    (arch = "arm64" ∧ ev = Event.copyLoader "EFI/Boot/BOOTAA64.EFI") ∨
    ev = Event.umountBoot ∨
    ev = Event.mountRoot ∨ (∃ n, ev = Event.extractLayer n) ∨ ev = Event.umountRoot := by
  unfold mainBuildSteps at h
  rcases mem_bind_trace h with h | ⟨_, _, h⟩
  · rcases mem_create_partitions_trace h with h | h | h | h | h | h <;> subst h <;> simp
  rcases mem_bind_trace h with h | ⟨_, _, h⟩
  · rw [runCmd_trace] at h; simp at h; subst h; simp
  rcases mem_bind_trace h with h | ⟨_, _, h⟩
  · rw [runCmd_trace] at h; simp at h; subst h; simp
  rcases mem_bind_trace h with h | ⟨_, _, h⟩
  · rw [runCmd_trace] at h; simp at h; subst h; simp
  rcases mem_bind_trace h with h | ⟨_, _, h⟩
  · rcases mem_fill_boot_trace h with h | h | ⟨hx, h⟩ | ⟨hx, h⟩ | h
    · subst h; simp
    · subst h; simp
    · subst h; simp [hx]
    · subst h; simp [hx]
    · subst h; simp
  · rcases mem_fill_ext4_trace h with h | ⟨n, h⟩ | h
    · subst h; simp
    · subst h; simp
    · subst h; simp

theorem mem_convertStage_trace {env : Env} {ti tf : Option String} {ev : Event}
    (h : ev ∈ (convertStage env ti tf).trace) :
    ∃ f, tf = some f ∧ ev = Event.convertImage f := by
  rcases ti with _ | ti' <;> rcases tf with _ | tf' <;>
    simp only [convertStage, pure_trace] at h
  · simp at h
  · simp at h
  · simp at h
  · rw [tryCatchCPE_throw_trace, runCmd_trace] at h
    simp at h; subst h
    exact ⟨tf', rfl, rfl⟩

/-- Every event a run of `new_efi_boot_disk` can ever attempt, with the
payloads pinned to the values the script computes from its arguments. -/
theorem mem_new_efi_trace {env : Env} {p l arch : String} {d e : Int}
    {ti tf : Option String} {ev : Event}
    (h : ev ∈ (new_efi_boot_disk env p l arch d e ti tf).trace) :
    ev = Event.createImage (toString d ++ "MiB") ∨ ev = Event.attachLoop ∨
    ev = Event.mklabelGpt ∨ ev = Event.mkpartEfi "1MiB" (toString (1 + e) ++ "MiB") ∨
    ev = Event.setBootFlag ∨ ev = Event.setEspFlag ∨
    ev = Event.mkpartRoot (toString (1 + e) ++ "MiB") "100%" ∨ ev = Event.sleepPartscan ∨
    ev = Event.formatFat ∨ ev = Event.formatExt4 ∨ ev = Event.setExt4Uuid ∨
    ev = Event.mountBoot ∨ ev = Event.makeBootDir ∨
    (arch = "x86_64" ∧ ev = Event.copyLoader "EFI/Boot/BOOTX64.EFI") ∨
    (arch = "arm64" ∧ ev = Event.copyLoader "EFI/Boot/BOOTAA64.EFI") ∨
    ev = Event.umountBoot ∨
    ev = Event.mountRoot ∨ (∃ n, ev = Event.extractLayer n) ∨ ev = Event.umountRoot ∨
    ev = Event.detachLoop ∨ (∃ f, tf = some f ∧ ev = Event.convertImage f) := by
  unfold new_efi_boot_disk at h
  split at h
  · simp [throwErr_trace] at h
  split at h
  · simp [throwErr_trace] at h
  rcases mem_bind_trace h with h | ⟨_, _, h⟩
  · rw [tryCatchCPE_throw_trace, runCmd_trace] at h
    simp at h; subst h; simp
  rcases mem_bind_trace h with h | ⟨_, _, h⟩
  · rw [tryCatchCPE_throw_trace, runCmd_trace] at h
    simp at h; subst h; simp
  rcases mem_bind_trace h with h | ⟨_, _, h⟩
  · rw [trace_tryFinally, runCmd_trace] at h
    rcases List.mem_append.mp h with h | h
    · rcases mem_mainBuildSteps_trace h with
        h | h | h | h | h | h | h | h | h | h | h | ⟨hx, h⟩ | ⟨hx, h⟩ | h | h | ⟨n, h⟩ | h <;>
        subst h
      · simp
      · simp
      · simp
      · simp
      · simp
      · simp
      · simp
      · simp
      · simp
      · simp
      · simp
      · simp [hx]
      · simp [hx]
      · simp
      · simp
      · simp
      · simp
    · simp at h; subst h; simp
  · rcases mem_convertStage_trace h with ⟨f, hf, h⟩
    subst h
    exact Or.inr (Or.inr (Or.inr (Or.inr (Or.inr (Or.inr (Or.inr (Or.inr (Or.inr (Or.inr
      (Or.inr (Or.inr (Or.inr (Or.inr (Or.inr (Or.inr (Or.inr (Or.inr (Or.inr (Or.inr
      ⟨f, hf, rfl⟩)))))))))))))))))))

/-! ### Counting lemmas for the cleanup discipline -/

theorem count_zero_of_not_mem {ev : Event} {t : List Event} (h : ev ∉ t) :
    List.count ev t = 0 := List.count_eq_zero.mpr h

theorem count_bind_of_ok {α β : Type} {ev : Event} {x : RunResult α} {a : α}
    {f : α → RunResult β} (hres : x.res = Except.ok a) :
    List.count ev (x >>= f).trace = List.count ev x.trace + List.count ev (f a).trace := by
  rw [count_bind_trace, hres]

theorem count_bind_tail_zero {α β : Type} {ev : Event} {x : RunResult α} {f : α → RunResult β}
    (hf : ∀ a, List.count ev (f a).trace = 0) :
    List.count ev (x >>= f).trace = List.count ev x.trace := by
  rcases x with ⟨res, t⟩
  cases res <;> simp [Bind.bind, RunResult.bind, List.count_append, hf]

theorem runCmd_true (ev : Event) (cmd : String) : runCmd true ev cmd = ⟨.ok (), [ev]⟩ := rfl

theorem tryCatchCPE_ok {α : Type} (a : α) (t : List Event) (h : String → RunResult α) :
    RunResult.tryCatchCPE ⟨.ok a, t⟩ h = ⟨.ok a, t⟩ := rfl

theorem detach_not_in_mainBuildSteps (env : Env) (ld s1 s2 l arch : String) :
    Event.detachLoop ∉ (mainBuildSteps env ld s1 s2 l arch).trace := by
  intro h
  rcases mem_mainBuildSteps_trace h with
    h | h | h | h | h | h | h | h | h | h | h | ⟨_, h⟩ | ⟨_, h⟩ | h | h | ⟨n, h⟩ | h <;>
    simp at h

theorem detach_not_in_convertStage (env : Env) (ti tf : Option String) :
    Event.detachLoop ∉ (convertStage env ti tf).trace := by
  intro h
  rcases mem_convertStage_trace h with ⟨f, _, h⟩
  simp at h

/-- C4: once the loop device is attached, its detachment is attempted exactly
once, on every path: the script's outer `finally` is the unique source of a
`losetup -d`, and it always runs. -/
theorem claim_C4_loop_detach_exactly_once (env : Env) (p l arch : String) (d e : Int)
    (ti tf : Option String)
    (hsize : e + 1 < d) (hpath : env.imagePathExists = false)
    (hfa : env.fallocateOk = true) (hlo : env.losetupOk = true) :
    List.count Event.detachLoop (new_efi_boot_disk env p l arch d e ti tf).trace = 1 := by
  unfold new_efi_boot_disk
  rw [if_neg (by omega : ¬ d ≤ e + 1), if_neg (by simp [hpath])]
  simp only [hfa, hlo, runCmd_true, tryCatchCPE_ok]
  rw [count_bind_of_ok rfl, count_bind_of_ok rfl,
    count_bind_tail_zero (fun _ => count_zero_of_not_mem (detach_not_in_convertStage env ti tf)),
    trace_tryFinally, runCmd_trace, List.count_append,
    count_zero_of_not_mem (detach_not_in_mainBuildSteps env env.loopDevice "1MiB"
      (toString (1 + e) ++ "MiB") l arch)]
  rw [count_zero_of_not_mem
      (by simp : Event.detachLoop ∉ [Event.createImage (toString d ++ "MiB")]),
    count_zero_of_not_mem (by simp : Event.detachLoop ∉ [Event.attachLoop])]
  decide

/-! ### Characterization of the errors each stage can raise -/

theorem res_error_bind {α β : Type} {x : RunResult α} {f : α → RunResult β} {er : Err}
    (h : (x >>= f).res = .error er) :
    x.res = .error er ∨ ∃ a, x.res = Except.ok a ∧ (f a).res = .error er := by
  rcases x with ⟨res, t⟩
  cases res with
  | ok a => exact Or.inr ⟨a, rfl, h⟩
  | error e => simp [Bind.bind, RunResult.bind] at h; simp [h]

theorem res_error_tryFinally {α : Type} {body : RunResult α} {fin : RunResult Unit} {er : Err}
    (h : (RunResult.tryFinally body fin).res = .error er) :
    body.res = .error er ∨ fin.res = .error er := by
  unfold RunResult.tryFinally at h
  rcases body with ⟨rb, tb⟩
  rcases fin with ⟨rf, tf⟩
  cases rb <;> cases rf <;> simp_all

theorem res_error_tryCatchCPE_throw {α : Type} {x : RunResult α} {g : String → Err} {er : Err}
    (h : (RunResult.tryCatchCPE x (fun c => throwErr (g c))).res = .error er) :
    (∃ c, er = g c) ∨ (x.res = .error er ∧ ∀ c, er ≠ Err.calledProcessError c) := by
  rcases x with ⟨res, t⟩
  rcases res with e | a
  · rcases e with m | m | m | c | m
    · have h2 : Err.valueError m = er := by simpa [RunResult.tryCatchCPE] using h
      exact Or.inr ⟨by simp [h2], by simp [← h2]⟩
    · have h2 : Err.fileExistsError m = er := by simpa [RunResult.tryCatchCPE] using h
      exact Or.inr ⟨by simp [h2], by simp [← h2]⟩
    · have h2 : Err.runtimeError m = er := by simpa [RunResult.tryCatchCPE] using h
      exact Or.inr ⟨by simp [h2], by simp [← h2]⟩
    · have h2 : g c = er := by simpa [RunResult.tryCatchCPE, throwErr] using h
      exact Or.inl ⟨c, h2.symm⟩
    · have h2 : Err.osError m = er := by simpa [RunResult.tryCatchCPE] using h
      exact Or.inr ⟨by simp [h2], by simp [← h2]⟩
  · simp [RunResult.tryCatchCPE] at h

theorem res_error_runCmd {ok : Bool} {ev : Event} {cmd : String} {er : Err}
    (h : (runCmd ok ev cmd).res = .error er) : er = Err.calledProcessError cmd := by
  unfold runCmd at h
  cases ok <;> simp at h
  exact h.symm

theorem res_error_copyFile {ok : Bool} {dest : String} {er : Err}
    (h : (copyFile ok dest).res = .error er) : er = Err.osError "copy2 failed" := by
  unfold copyFile at h
  cases ok <;> simp at h
  exact h.symm

theorem res_error_create_partitions {env : Env} {ld s1 s2 : String} {er : Err}
    (h : (create_partitions env ld s1 s2).res = .error er) :
    (∃ c, er = Err.calledProcessError c) ∨ ∃ m, er = Err.runtimeError m := by
  unfold create_partitions at h
  rcases res_error_bind h with h | ⟨_, _, h⟩
  · exact Or.inl ⟨_, res_error_runCmd h⟩
  rcases res_error_bind h with h | ⟨_, _, h⟩
  · exact Or.inl ⟨_, res_error_runCmd h⟩
  rcases res_error_bind h with h | ⟨_, _, h⟩
  · exact Or.inl ⟨_, res_error_runCmd h⟩
  rcases res_error_bind h with h | ⟨_, _, h⟩
  · exact Or.inl ⟨_, res_error_runCmd h⟩
  rcases res_error_bind h with h | ⟨_, _, h⟩
  · exact Or.inl ⟨_, res_error_runCmd h⟩
  rcases res_error_bind h with h | ⟨_, _, h⟩
  · simp [emitEvent] at h
  · split at h
    · simp [throwErr] at h; exact Or.inr ⟨_, h.symm⟩
    split at h
    · simp [throwErr] at h; exact Or.inr ⟨_, h.symm⟩
    · simp [Pure.pure] at h

theorem res_error_fill_boot {env : Env} {p l arch : String} {er : Err}
    (h : (fill_boot_partition env p l arch).res = .error er) :
    (∃ c, er = Err.calledProcessError c) ∨ er = Err.osError "copy2 failed" ∨
      er = Err.valueError ("Unsupported architecture: " ++ arch) := by
  unfold fill_boot_partition at h
  rcases res_error_bind h with h | ⟨_, _, h⟩
  · exact Or.inl ⟨_, res_error_runCmd h⟩
  rcases res_error_tryFinally h with h | h
  · rcases res_error_bind h with h | ⟨_, _, h⟩
    · simp [emitEvent] at h
    split at h
    · rcases res_error_bind h with h | ⟨_, _, h⟩
      · simp [Pure.pure] at h
      · exact Or.inr (Or.inl (res_error_copyFile h))
    split at h
    · rcases res_error_bind h with h | ⟨_, _, h⟩
      · simp [Pure.pure] at h
      · exact Or.inr (Or.inl (res_error_copyFile h))
    · rcases res_error_bind h with h | ⟨ef, hok, h⟩
      · simp [throwErr] at h
        exact Or.inr (Or.inr h.symm)
      · simp [throwErr] at hok
  · exact Or.inl ⟨_, res_error_runCmd h⟩

theorem res_error_extractLayers {env : Env} {arch : String} {ls : List String} {er : Err}
    (h : (extractLayers env arch ls).res = .error er) :
    ∃ c, er = Err.calledProcessError c := by
  induction ls with
  | nil => simp [extractLayers, Pure.pure] at h
  | cons layer rest ih =>
    unfold extractLayers at h
    split at h
    · exact ih h
    · rcases res_error_bind h with h | ⟨_, _, h⟩
      · exact ⟨_, res_error_runCmd h⟩
      · exact ih h

theorem res_error_fill_ext4 {env : Env} {p arch : String} {er : Err}
    (h : (fill_ext4_partition env p arch).res = .error er) :
    ∃ c, er = Err.calledProcessError c := by
  unfold fill_ext4_partition at h
  rcases res_error_bind h with h | ⟨_, _, h⟩
  · exact ⟨_, res_error_runCmd h⟩
  rcases res_error_tryFinally h with h | h
  · split at h
    · exact res_error_extractLayers h
    · simp [Pure.pure] at h
  · exact ⟨_, res_error_runCmd h⟩

theorem res_error_mainBuildSteps {env : Env} {ld s1 s2 l arch : String} {er : Err}
    (h : (mainBuildSteps env ld s1 s2 l arch).res = .error er) :
    (∃ c, er = Err.calledProcessError c) ∨ (∃ m, er = Err.runtimeError m) ∨
      er = Err.osError "copy2 failed" ∨
      er = Err.valueError ("Unsupported architecture: " ++ arch) := by
  unfold mainBuildSteps at h
  rcases res_error_bind h with h | ⟨_, _, h⟩
  · rcases res_error_create_partitions h with h | h
    · exact Or.inl h
    · exact Or.inr (Or.inl h)
  rcases res_error_bind h with h | ⟨_, _, h⟩
  · exact Or.inl ⟨_, res_error_runCmd h⟩
  rcases res_error_bind h with h | ⟨_, _, h⟩
  · exact Or.inl ⟨_, res_error_runCmd h⟩
  rcases res_error_bind h with h | ⟨_, _, h⟩
  · exact Or.inl ⟨_, res_error_runCmd h⟩
  rcases res_error_bind h with h | ⟨_, _, h⟩
  · rcases res_error_fill_boot h with h | h | h
    · exact Or.inl h
    · exact Or.inr (Or.inr (Or.inl h))
    · exact Or.inr (Or.inr (Or.inr h))
  · rcases res_error_fill_ext4 h with ⟨c, h⟩
    exact Or.inl ⟨c, h⟩

theorem res_error_convertStage {env : Env} {ti tf : Option String} {er : Err}
    (h : (convertStage env ti tf).res = .error er) :
    (∃ m, er = Err.runtimeError m) := by
  rcases ti with _ | ti' <;> rcases tf with _ | tf' <;>
    simp only [convertStage] at h
  · simp [Pure.pure] at h
  · simp [Pure.pure] at h
  · simp [Pure.pure] at h
  · rcases res_error_tryCatchCPE_throw h with ⟨c, h⟩ | ⟨h, hne⟩
    · exact ⟨_, h⟩
    · exact absurd (res_error_runCmd h) (hne _)

/-- The unsupported-architecture message can never coincide with the
size-validation message, whatever the architecture string. -/
theorem unsupported_ne_sizeErrMsg (arch : String) :
    "Unsupported architecture: " ++ arch ≠ sizeErrMsg := by
  intro h
  have h2 := congrArg String.data h
  rw [String.data_append] at h2
  have h3 : "Unsupported architecture: ".data
      = 'U' :: "nsupported architecture: ".data := by decide
  have h4 : sizeErrMsg.data
      = 'D' ::
        "isk size must be greater than EFI size plus 1 MiB for proper partition alignment.".data :=
    by decide
  rw [h3, h4, List.cons_append] at h2
  injection h2 with h5 _
  exact absurd h5 (by decide)

/-- Every error the pipeline can raise once the size validation has passed. -/
theorem res_error_new_efi {env : Env} {p l arch : String} {d e : Int} {ti tf : Option String}
    {er : Err} (hsize : e + 1 < d)
    (h : (new_efi_boot_disk env p l arch d e ti tf).res = .error er) :
    (∃ m, er = Err.fileExistsError m) ∨ (∃ m, er = Err.runtimeError m) ∨
    (∃ c, er = Err.calledProcessError c) ∨ er = Err.osError "copy2 failed" ∨
    er = Err.valueError ("Unsupported architecture: " ++ arch) := by
  unfold new_efi_boot_disk at h
  rw [if_neg (by omega : ¬ d ≤ e + 1)] at h
  split at h
  · simp [throwErr] at h
    exact Or.inl ⟨_, h.symm⟩
  rcases res_error_bind h with h | ⟨_, _, h⟩
  · rcases res_error_tryCatchCPE_throw h with ⟨c, h⟩ | ⟨h, hne⟩
    · exact Or.inr (Or.inl ⟨_, h⟩)
    · exact absurd (res_error_runCmd h) (hne _)
  rcases res_error_bind h with h | ⟨_, _, h⟩
  · rcases res_error_tryCatchCPE_throw h with ⟨c, h⟩ | ⟨h, hne⟩
    · exact Or.inr (Or.inl ⟨_, h⟩)
    · exact absurd (res_error_runCmd h) (hne _)
  rcases res_error_bind h with h | ⟨_, _, h⟩
  · rcases res_error_tryFinally h with h | h
    · rcases res_error_mainBuildSteps h with h | h | h | h
      · exact Or.inr (Or.inr (Or.inl h))
      · exact Or.inr (Or.inl h)
      · exact Or.inr (Or.inr (Or.inr (Or.inl h)))
      · exact Or.inr (Or.inr (Or.inr (Or.inr h)))
    · exact Or.inr (Or.inr (Or.inl ⟨_, res_error_runCmd h⟩))
  · rcases res_error_convertStage h with ⟨m, h⟩
    exact Or.inr (Or.inl ⟨m, h⟩)

/-- C3: with `disk_size_mib <= efi_size_mib + 1` the build is rejected with
the size `ValueError` and an empty trace (no image created, no loop device
attached); with `disk_size_mib > efi_size_mib + 1` that validation never
fires: no run ends with the size-validation error. -/
theorem claim_C3_size_validation (env : Env) (p l arch : String) (d e : Int)
    (ti tf : Option String) :
    (d ≤ e + 1 →
      new_efi_boot_disk env p l arch d e ti tf
        = ⟨.error (Err.valueError sizeErrMsg), []⟩) ∧
    (e + 1 < d →
      (new_efi_boot_disk env p l arch d e ti tf).res
        ≠ .error (Err.valueError sizeErrMsg)) := by
  constructor
  · intro hle
    unfold new_efi_boot_disk
    rw [if_pos hle]
    rfl
  · intro hgt hres
    rcases res_error_new_efi hgt hres with ⟨m, h⟩ | ⟨m, h⟩ | ⟨c, h⟩ | h | h
    · simp at h
    · simp at h
    · simp at h
    · simp at h
    · simp at h
      exact absurd h.symm (unsupported_ne_sizeErrMsg arch)

/-- Witness for C3 at concrete sizes: 500/499 is rejected with an empty
trace; 512/256 passes the validation. -/
theorem claim_C3_size_validation_witness :
    ((500 : Int) ≤ 499 + 1 ∧
      new_efi_boot_disk envOk "/tmp/a.img" "ldr" "x86_64" 500 499 none none
        = ⟨.error (Err.valueError sizeErrMsg), []⟩) ∧
    ((256 : Int) + 1 < 512 ∧
      (new_efi_boot_disk envOk "/tmp/a.img" "ldr" "x86_64" 512 256 none none).res
        ≠ .error (Err.valueError sizeErrMsg)) :=
  ⟨⟨by decide,
    (claim_C3_size_validation envOk "/tmp/a.img" "ldr" "x86_64" 500 499 none none).1
      (by decide)⟩,
   ⟨by decide,
    (claim_C3_size_validation envOk "/tmp/a.img" "ldr" "x86_64" 512 256 none none).2
      (by decide)⟩⟩

/-- Witness for C4: with all commands succeeding and valid sizes, exactly one
`losetup -d` appears in the trace. -/
theorem claim_C4_loop_detach_exactly_once_witness :
    ((256 : Int) + 1 < 512 ∧ envOk.imagePathExists = false ∧
      envOk.fallocateOk = true ∧ envOk.losetupOk = true) ∧
    List.count Event.detachLoop
      (new_efi_boot_disk envOk "/tmp/disk.img" "bzImage" "x86_64" 512 256 none none).trace
      = 1 :=
  ⟨⟨by decide, rfl, rfl, rfl⟩,
    claim_C4_loop_detach_exactly_once envOk "/tmp/disk.img" "bzImage" "x86_64" 512 256
      none none (by decide) rfl rfl rfl⟩

/-! ### Closed-form evaluation of the stages under explicit environments -/

theorem create_partitions_all_ok (env : Env) (ld s1 s2 : String)
    (hml : env.mklabelOk = true) (hm1 : env.mkpartEfiOk = true) (hb : env.setBootOk = true)
    (hesp : env.setEspOk = true) (hm2 : env.mkpartRootOk = true)
    (hp1 : env.part1Exists = true) (hp2 : env.part2Exists = true) :
    create_partitions env ld s1 s2
      = ⟨.ok (ld ++ "p1", ld ++ "p2"),
         [Event.mklabelGpt, Event.mkpartEfi s1 s2, Event.setBootFlag, Event.setEspFlag,
          Event.mkpartRoot s2 "100%", Event.sleepPartscan]⟩ := by
  unfold create_partitions
  simp [hml, hm1, hb, hesp, hm2, hp1, hp2, runCmd_true, emitEvent, Bind.bind,
    RunResult.bind, Pure.pure, throwErr]

theorem fill_boot_all_ok_x86 (env : Env) (p l : String)
    (hmb : env.mountBootOk = true) (hcp : env.copyLoaderOk = true)
    (hub : env.umountBootOk = true) :
    fill_boot_partition env p l "x86_64"
      = ⟨.ok (), [Event.mountBoot, Event.makeBootDir,
          Event.copyLoader "EFI/Boot/BOOTX64.EFI", Event.umountBoot]⟩ := by
  unfold fill_boot_partition
  simp [hmb, hcp, hub, runCmd_true, emitEvent, copyFile, Bind.bind, RunResult.bind,
    RunResult.tryFinally, Pure.pure]

theorem fill_boot_all_ok_arm (env : Env) (p l : String)
    (hmb : env.mountBootOk = true) (hcp : env.copyLoaderOk = true)
    (hub : env.umountBootOk = true) :
    fill_boot_partition env p l "arm64"
      = ⟨.ok (), [Event.mountBoot, Event.makeBootDir,
          Event.copyLoader "EFI/Boot/BOOTAA64.EFI", Event.umountBoot]⟩ := by
  unfold fill_boot_partition
  simp [hmb, hcp, hub, runCmd_true, emitEvent, copyFile, Bind.bind, RunResult.bind,
    RunResult.tryFinally, Pure.pure]

theorem fill_boot_bad_arch (env : Env) (p l arch : String)
    (h64 : arch ≠ "x86_64") (ha64 : arch ≠ "arm64")
    (hmb : env.mountBootOk = true) (hub : env.umountBootOk = true) :
    fill_boot_partition env p l arch
      = ⟨.error (Err.valueError ("Unsupported architecture: " ++ arch)),
         [Event.mountBoot, Event.makeBootDir, Event.umountBoot]⟩ := by
  unfold fill_boot_partition
  simp [hmb, hub, runCmd_true, emitEvent, throwErr, Bind.bind, RunResult.bind,
    RunResult.tryFinally, h64, ha64]

theorem fill_boot_mask_x86 (env : Env) (p l : String)
    (hmb : env.mountBootOk = true) (hcp : env.copyLoaderOk = false)
    (hub : env.umountBootOk = false) :
    fill_boot_partition env p l "x86_64"
      = ⟨.error (Err.calledProcessError "umount"),
         [Event.mountBoot, Event.makeBootDir,
          Event.copyLoader "EFI/Boot/BOOTX64.EFI", Event.umountBoot]⟩ := by
  unfold fill_boot_partition
  simp [hmb, hcp, hub, runCmd_true, runCmd, emitEvent, copyFile, Bind.bind,
    RunResult.bind, RunResult.tryFinally, Pure.pure]

theorem extractLayers_all_ok (env : Env) (arch : String) (ls : List String)
    (hex : ∀ f, env.extractOk f = true) :
    extractLayers env arch ls
      = ⟨.ok (), (ls.filter
            (fun n => strContains (baseName n) "noarch"
              || strContains (baseName n) arch)).map Event.extractLayer⟩ := by
  induction ls with
  | nil => rfl
  | cons l rest ih =>
    unfold extractLayers
    by_cases hc : strContains (baseName l) "noarch" = false
        ∧ strContains (baseName l) arch = false
    · have hp : (strContains (baseName l) "noarch" || strContains (baseName l) arch)
          = false := by
        simp [hc.1, hc.2]
      rw [if_pos hc, ih]
      simp [List.filter_cons, hp]
    · have hp : (strContains (baseName l) "noarch" || strContains (baseName l) arch)
          = true := by
        cases h1 : strContains (baseName l) "noarch" <;>
          cases h2 : strContains (baseName l) arch <;> simp_all
      rw [if_neg hc]
      simp [hex l, runCmd_true, Bind.bind, RunResult.bind, ih, List.filter_cons, hp]

theorem fill_ext4_all_ok (env : Env) (p arch : String)
    (hmr : env.mountRootOk = true) (hld : env.layersDirExists = true)
    (hex : ∀ f, env.extractOk f = true) (hur : env.umountRootOk = true) :
    fill_ext4_partition env p arch
      = ⟨.ok (), Event.mountRoot ::
          ((sortStrings env.layerFiles).filter
              (fun n => strContains (baseName n) "noarch"
                || strContains (baseName n) arch)).map Event.extractLayer
          ++ [Event.umountRoot]⟩ := by
  unfold fill_ext4_partition
  rw [extractLayers_all_ok env arch _ hex]
  simp [hmr, hld, hur, runCmd_true, Bind.bind, RunResult.bind, RunResult.tryFinally]

theorem fill_ext4_no_dir (env : Env) (p arch : String)
    (hmr : env.mountRootOk = true) (hld : env.layersDirExists = false)
    (hur : env.umountRootOk = true) :
    fill_ext4_partition env p arch = ⟨.ok (), [Event.mountRoot, Event.umountRoot]⟩ := by
  unfold fill_ext4_partition
  simp [hmr, hld, hur, runCmd_true, Bind.bind, RunResult.bind, RunResult.tryFinally,
    Pure.pure]

theorem mainBuildSteps_eval (env : Env) (ld s1 s2 l arch : String)
    (bootRes : RunResult Unit) (rootEvents : List Event)
    (hml : env.mklabelOk = true) (hm1 : env.mkpartEfiOk = true) (hb : env.setBootOk = true)
    (hesp : env.setEspOk = true) (hm2 : env.mkpartRootOk = true)
    (hp1 : env.part1Exists = true) (hp2 : env.part2Exists = true)
    (hff : env.mkfsFatOk = true) (hfe : env.mkfsExt4Ok = true) (ht : env.tune2fsOk = true)
    (hboot : fill_boot_partition env (ld ++ "p1") l arch = bootRes)
    (hbootOk : bootRes.res = .ok ())
    (hroot : fill_ext4_partition env (ld ++ "p2") arch = ⟨.ok (), rootEvents⟩) :
    mainBuildSteps env ld s1 s2 l arch
      = ⟨.ok (),
         ([Event.mklabelGpt, Event.mkpartEfi s1 s2, Event.setBootFlag, Event.setEspFlag,
           Event.mkpartRoot s2 "100%", Event.sleepPartscan, Event.formatFat,
           Event.formatExt4, Event.setExt4Uuid] ++ bootRes.trace) ++ rootEvents⟩ := by
  unfold mainBuildSteps
  rw [create_partitions_all_ok env ld s1 s2 hml hm1 hb hesp hm2 hp1 hp2]
  rcases bootRes with ⟨br, bt⟩
  simp at hbootOk
  subst hbootOk
  simp [hff, hfe, ht, runCmd_true, Bind.bind, RunResult.bind, hboot, hroot]

theorem mainBuildSteps_bad_arch (env : Env) (ld s1 s2 l arch : String)
    (h64 : arch ≠ "x86_64") (ha64 : arch ≠ "arm64")
    (hml : env.mklabelOk = true) (hm1 : env.mkpartEfiOk = true) (hb : env.setBootOk = true)
    (hesp : env.setEspOk = true) (hm2 : env.mkpartRootOk = true)
    (hp1 : env.part1Exists = true) (hp2 : env.part2Exists = true)
    (hff : env.mkfsFatOk = true) (hfe : env.mkfsExt4Ok = true) (ht : env.tune2fsOk = true)
    (hmb : env.mountBootOk = true) (hub : env.umountBootOk = true) :
    mainBuildSteps env ld s1 s2 l arch
      = ⟨.error (Err.valueError ("Unsupported architecture: " ++ arch)),
         [Event.mklabelGpt, Event.mkpartEfi s1 s2, Event.setBootFlag, Event.setEspFlag,
          Event.mkpartRoot s2 "100%", Event.sleepPartscan, Event.formatFat,
          Event.formatExt4, Event.setExt4Uuid, Event.mountBoot, Event.makeBootDir,
          Event.umountBoot]⟩ := by
  unfold mainBuildSteps
  rw [create_partitions_all_ok env ld s1 s2 hml hm1 hb hesp hm2 hp1 hp2]
  simp [hff, hfe, ht, runCmd_true, Bind.bind, RunResult.bind,
    fill_boot_bad_arch env (ld ++ "p1") l arch h64 ha64 hmb hub]

/-- Evaluation of the pipeline head (size check, collision check, fallocate,
losetup) under a fresh path and succeeding allocation commands: the run is the
guarded main block followed by the optional conversion, behind the first two
trace events. -/
theorem new_efi_eval (env : Env) (p l arch : String) (d e : Int) (ti tf : Option String)
    (hsize : e + 1 < d) (hpath : env.imagePathExists = false)
    (hfa : env.fallocateOk = true) (hlo : env.losetupOk = true) :
    new_efi_boot_disk env p l arch d e ti tf
      = ⟨(RunResult.bind (RunResult.tryFinally
            (mainBuildSteps env env.loopDevice "1MiB" (toString (1 + e) ++ "MiB") l arch)
            (runCmd env.detachOk Event.detachLoop "losetup -d"))
            (fun _ => convertStage env ti tf)).res,
         Event.createImage (toString d ++ "MiB") :: Event.attachLoop ::
           (RunResult.bind (RunResult.tryFinally
              (mainBuildSteps env env.loopDevice "1MiB" (toString (1 + e) ++ "MiB") l arch)
              (runCmd env.detachOk Event.detachLoop "losetup -d"))
              (fun _ => convertStage env ti tf)).trace⟩ := by
  unfold new_efi_boot_disk
  rw [if_neg (by omega : ¬ d ≤ e + 1), if_neg (by simp [hpath])]
  simp only [hfa, hlo, runCmd_true, tryCatchCPE_ok]
  rfl

theorem extractedNames_append (a b : List Event) :
    extractedNames (a ++ b) = extractedNames a ++ extractedNames b := by
  simp [extractedNames, List.filterMap_append]

theorem extractedNames_map_extract (ns : List String) :
    extractedNames (ns.map Event.extractLayer) = ns := by
  induction ns with
  | nil => rfl
  | cons n rest ih =>
    simp only [List.map_cons, extractedNames, List.filterMap_cons] at ih ⊢
    rw [ih]

theorem extractedNames_convertStage (env : Env) (ti tf : Option String) :
    extractedNames (convertStage env ti tf).trace = [] := by
  rcases ti with _ | ti' <;> rcases tf with _ | tf' <;>
    simp [convertStage, extractedNames, tryCatchCPE_throw_trace, runCmd_trace, Pure.pure]

/-! ### The claims -/

/-- C6: every EFI mkpart the script ever issues spans from 1 MiB to
(1 + efi_size_mib) MiB and every root mkpart from (1 + efi_size_mib) MiB to
100% of the disk, whatever the environment does; and in the 512/256 scenario
with everything succeeding, the two partitions are actually created with
bounds [1MiB, 257MiB] and [257MiB, 100%] on an image allocated at 512MiB. -/
theorem claim_C6_partition_bounds (env : Env) (p l arch : String) (d e : Int)
    (ti tf : Option String) :
    (∀ s t, Event.mkpartEfi s t ∈ (new_efi_boot_disk env p l arch d e ti tf).trace →
      s = "1MiB" ∧ t = toString (1 + e) ++ "MiB") ∧
    (∀ s t, Event.mkpartRoot s t ∈ (new_efi_boot_disk env p l arch d e ti tf).trace →
      s = toString (1 + e) ++ "MiB" ∧ t = "100%") ∧
    Event.createImage "512MiB"
      ∈ (new_efi_boot_disk envOk "/tmp/disk.img" "ldr" "x86_64" 512 256 none none).trace ∧
    Event.mkpartEfi "1MiB" "257MiB"
      ∈ (new_efi_boot_disk envOk "/tmp/disk.img" "ldr" "x86_64" 512 256 none none).trace ∧
    Event.mkpartRoot "257MiB" "100%"
      ∈ (new_efi_boot_disk envOk "/tmp/disk.img" "ldr" "x86_64" 512 256 none none).trace := by
  refine ⟨?_, ?_, by decide, by decide, by decide⟩
  · intro s t h
    rcases mem_new_efi_trace h with
      h | h | h | h | h | h | h | h | h | h | h | h | h | ⟨hx, h⟩ | ⟨hx, h⟩ | h | h |
      ⟨n, h⟩ | h | h | ⟨f, hf, h⟩ <;> simp at h
    exact h
  · intro s t h
    rcases mem_new_efi_trace h with
      h | h | h | h | h | h | h | h | h | h | h | h | h | ⟨hx, h⟩ | ⟨hx, h⟩ | h | h |
      ⟨n, h⟩ | h | h | ⟨f, hf, h⟩ <;> simp at h
    exact h

/-- C7: the only loader destination the script can ever write is
`EFI/Boot/BOOTX64.EFI` (and then the architecture is x86_64) or
`EFI/Boot/BOOTAA64.EFI` (and then it is arm64); in the all-ok scenarios each
architecture actually installs its loader at that path. -/
theorem claim_C7_loader_path (env : Env) (p l arch : String) (d e : Int)
    (ti tf : Option String) :
    (∀ n, Event.copyLoader n ∈ (new_efi_boot_disk env p l arch d e ti tf).trace →
      (arch = "x86_64" ∧ n = "EFI/Boot/BOOTX64.EFI") ∨
      (arch = "arm64" ∧ n = "EFI/Boot/BOOTAA64.EFI")) ∧
    Event.copyLoader "EFI/Boot/BOOTAA64.EFI"
      ∈ (new_efi_boot_disk envOk "/tmp/disk.img" "Image" "arm64" 512 256 none none).trace ∧
    Event.copyLoader "EFI/Boot/BOOTX64.EFI"
      ∈ (new_efi_boot_disk envOk "/tmp/disk.img" "bzImage" "x86_64" 512 256 none none).trace := by
  refine ⟨?_, by decide, by decide⟩
  intro n h
  rcases mem_new_efi_trace h with
    h | h | h | h | h | h | h | h | h | h | h | h | h | ⟨hx, h⟩ | ⟨hx, h⟩ | h | h |
    ⟨m, h⟩ | h | h | ⟨f, hf, h⟩ <;> simp at h
  · exact Or.inl ⟨hx, h⟩
  · exact Or.inr ⟨hx, h⟩

/-- C8: a pre-existing target path is rejected with `FileExistsError` naming
the path, with an empty trace: the existing file is untouched, no image is
allocated and no loop device is attached. -/
theorem claim_C8_path_collision (env : Env) (p l arch : String) (d e : Int)
    (ti tf : Option String)
    (hsize : e + 1 < d) (hpath : env.imagePathExists = true) :
    new_efi_boot_disk env p l arch d e ti tf
      = ⟨.error (Err.fileExistsError ("Disk image at " ++ p ++ " already exists.")), []⟩ := by
  unfold new_efi_boot_disk
  rw [if_neg (by omega : ¬ d ≤ e + 1), if_pos hpath]
  rfl

/-- Witness for C8. -/
theorem claim_C8_path_collision_witness :
    ((256 : Int) + 1 < 512 ∧ ({ envOk with imagePathExists := true } : Env).imagePathExists = true) ∧
    new_efi_boot_disk { envOk with imagePathExists := true } "/tmp/disk.img" "ldr" "x86_64"
        512 256 none none
      = ⟨.error (Err.fileExistsError "Disk image at /tmp/disk.img already exists."), []⟩ :=
  ⟨⟨by decide, rfl⟩, by
    have h := claim_C8_path_collision { envOk with imagePathExists := true } "/tmp/disk.img"
      "ldr" "x86_64" 512 256 none none (by decide) rfl
    simpa using h⟩

/-- Witness for C6: the EFI mkpart emitted in the 512/256 run carries exactly
the computed bounds. -/
theorem claim_C6_partition_bounds_witness :
    Event.mkpartEfi "1MiB" "257MiB"
      ∈ (new_efi_boot_disk envOk "/tmp/w6.img" "ldr" "x86_64" 512 256 none none).trace ∧
    ("1MiB" = "1MiB" ∧ "257MiB" = toString ((1 : Int) + 256) ++ "MiB") :=
  ⟨by decide,
    (claim_C6_partition_bounds envOk "/tmp/w6.img" "ldr" "x86_64" 512 256 none none).1
      "1MiB" "257MiB" (by decide)⟩

/-- Witness for C7: the loader destination observed in an arm64 run is
classified by the theorem. -/
theorem claim_C7_loader_path_witness :
    Event.copyLoader "EFI/Boot/BOOTAA64.EFI"
      ∈ (new_efi_boot_disk envOk "/tmp/w7.img" "Image" "arm64" 512 256 none none).trace ∧
    ((("arm64" : String) = "x86_64" ∧
        ("EFI/Boot/BOOTAA64.EFI" : String) = "EFI/Boot/BOOTX64.EFI") ∨
     (("arm64" : String) = "arm64" ∧
        ("EFI/Boot/BOOTAA64.EFI" : String) = "EFI/Boot/BOOTAA64.EFI")) :=
  ⟨by decide,
    (claim_C7_loader_path envOk "/tmp/w7.img" "Image" "arm64" 512 256 none none).1
      "EFI/Boot/BOOTAA64.EFI" (by decide)⟩

/-- C1 as stated is false: building with the unsupported architecture
`riscv64` does raise the unsupported-architecture error, but only after the
image file was allocated, the loop device attached, the EFI partition
formatted and mounted. -/
theorem claim_C1_counterexample :
    (new_efi_boot_disk envOk "/tmp/disk.img" "ldr" "riscv64" 512 256 none none).res
      = .error (Err.valueError "Unsupported architecture: riscv64") ∧
    Event.createImage "512MiB"
      ∈ (new_efi_boot_disk envOk "/tmp/disk.img" "ldr" "riscv64" 512 256 none none).trace ∧
    Event.attachLoop
      ∈ (new_efi_boot_disk envOk "/tmp/disk.img" "ldr" "riscv64" 512 256 none none).trace ∧
    Event.formatFat
      ∈ (new_efi_boot_disk envOk "/tmp/disk.img" "ldr" "riscv64" 512 256 none none).trace ∧
    Event.mountBoot
      ∈ (new_efi_boot_disk envOk "/tmp/disk.img" "ldr" "riscv64" 512 256 none none).trace := by
  decide

/-- C1 amended: an architecture other than x86_64/arm64 is rejected with the
unsupported-architecture `ValueError`, but only during boot-payload
installation — after image allocation, loop attachment, formatting and
mounting the EFI partition; the mount and the loop device are released before
the error reaches the caller. -/
theorem claim_C1_unsupported_arch_late (env : Env) (p l arch : String) (d e : Int)
    (ti tf : Option String)
    (h64 : arch ≠ "x86_64") (ha64 : arch ≠ "arm64")
    (hsize : e + 1 < d) (hpath : env.imagePathExists = false)
    (hfa : env.fallocateOk = true) (hlo : env.losetupOk = true)
    (hml : env.mklabelOk = true) (hm1 : env.mkpartEfiOk = true) (hb : env.setBootOk = true)
    (hesp : env.setEspOk = true) (hm2 : env.mkpartRootOk = true)
    (hp1 : env.part1Exists = true) (hp2 : env.part2Exists = true)
    (hff : env.mkfsFatOk = true) (hfe : env.mkfsExt4Ok = true) (ht : env.tune2fsOk = true)
    (hmb : env.mountBootOk = true) (hub : env.umountBootOk = true)
    (hd : env.detachOk = true) :
    (new_efi_boot_disk env p l arch d e ti tf).res
      = .error (Err.valueError ("Unsupported architecture: " ++ arch)) ∧
    Event.createImage (toString d ++ "MiB")
      ∈ (new_efi_boot_disk env p l arch d e ti tf).trace ∧
    Event.attachLoop ∈ (new_efi_boot_disk env p l arch d e ti tf).trace ∧
    Event.formatFat ∈ (new_efi_boot_disk env p l arch d e ti tf).trace ∧
    Event.mountBoot ∈ (new_efi_boot_disk env p l arch d e ti tf).trace ∧
    Event.umountBoot ∈ (new_efi_boot_disk env p l arch d e ti tf).trace ∧
    Event.detachLoop ∈ (new_efi_boot_disk env p l arch d e ti tf).trace := by
  rw [new_efi_eval env p l arch d e ti tf hsize hpath hfa hlo,
    mainBuildSteps_bad_arch env env.loopDevice "1MiB" (toString (1 + e) ++ "MiB") l arch
      h64 ha64 hml hm1 hb hesp hm2 hp1 hp2 hff hfe ht hmb hub]
  simp [hd, runCmd_true, RunResult.tryFinally, RunResult.bind]

/-- Witness for the amended C1. -/
theorem claim_C1_unsupported_arch_late_witness :
    (("riscv64" : String) ≠ "x86_64" ∧ ("riscv64" : String) ≠ "arm64" ∧
      (256 : Int) + 1 < 512) ∧
    (new_efi_boot_disk envOk "/tmp/w1.img" "ldr" "riscv64" 512 256 none none).res
      = .error (Err.valueError ("Unsupported architecture: " ++ "riscv64")) :=
  ⟨⟨by decide, by decide, by decide⟩,
    (claim_C1_unsupported_arch_late envOk "/tmp/w1.img" "ldr" "riscv64" 512 256 none none
      (by decide) (by decide) (by decide) rfl rfl rfl rfl rfl rfl rfl rfl rfl rfl rfl rfl
      rfl rfl rfl rfl).1⟩

theorem mainBuildSteps_mask_x86 (env : Env) (ld s1 s2 l : String)
    (hml : env.mklabelOk = true) (hm1 : env.mkpartEfiOk = true) (hb : env.setBootOk = true)
    (hesp : env.setEspOk = true) (hm2 : env.mkpartRootOk = true)
    (hp1 : env.part1Exists = true) (hp2 : env.part2Exists = true)
    (hff : env.mkfsFatOk = true) (hfe : env.mkfsExt4Ok = true) (ht : env.tune2fsOk = true)
    (hmb : env.mountBootOk = true) (hcp : env.copyLoaderOk = false)
    (hub : env.umountBootOk = false) :
    mainBuildSteps env ld s1 s2 l "x86_64"
      = ⟨.error (Err.calledProcessError "umount"),
         [Event.mklabelGpt, Event.mkpartEfi s1 s2, Event.setBootFlag, Event.setEspFlag,
          Event.mkpartRoot s2 "100%", Event.sleepPartscan, Event.formatFat,
          Event.formatExt4, Event.setExt4Uuid, Event.mountBoot, Event.makeBootDir,
          Event.copyLoader "EFI/Boot/BOOTX64.EFI", Event.umountBoot]⟩ := by
  unfold mainBuildSteps
  rw [create_partitions_all_ok env ld s1 s2 hml hm1 hb hesp hm2 hp1 hp2]
  simp [hff, hfe, ht, runCmd_true, Bind.bind, RunResult.bind,
    fill_boot_mask_x86 env (ld ++ "p1") l hmb hcp hub]

/-- C2 as stated is false: when the loader copy fails (`OSError`, the original
fatal error) and the boot-partition unmount in the `finally` block also fails,
the error propagated to the caller is the unmount `CalledProcessError`, not
the original fatal error — Python `finally` semantics replace the body's
exception. -/
theorem claim_C2_counterexample :
    (new_efi_boot_disk { envOk with copyLoaderOk := false, umountBootOk := false }
        "/tmp/disk.img" "ldr" "x86_64" 512 256 none none).res
      = .error (Err.calledProcessError "umount") ∧
    (new_efi_boot_disk { envOk with copyLoaderOk := false, umountBootOk := false }
        "/tmp/disk.img" "ldr" "x86_64" 512 256 none none).res
      ≠ .error (Err.osError "copy2 failed") ∧
    Event.copyLoader "EFI/Boot/BOOTX64.EFI"
      ∈ (new_efi_boot_disk { envOk with copyLoaderOk := false, umountBootOk := false }
          "/tmp/disk.img" "ldr" "x86_64" 512 256 none none).trace := by
  decide

/-- C2 amended: when a stage fails fatally (the loader copy raising `OSError`)
and the subsequent release step (the boot-partition unmount) also fails, the
release failure REPLACES the original fatal error as the one propagated to the
caller; later releases are still attempted — the loop device detach still
runs. -/
theorem claim_C2_release_failure_masks (env : Env) (p l : String) (d e : Int)
    (ti tf : Option String)
    (hsize : e + 1 < d) (hpath : env.imagePathExists = false)
    (hfa : env.fallocateOk = true) (hlo : env.losetupOk = true)
    (hml : env.mklabelOk = true) (hm1 : env.mkpartEfiOk = true) (hb : env.setBootOk = true)
    (hesp : env.setEspOk = true) (hm2 : env.mkpartRootOk = true)
    (hp1 : env.part1Exists = true) (hp2 : env.part2Exists = true)
    (hff : env.mkfsFatOk = true) (hfe : env.mkfsExt4Ok = true) (ht : env.tune2fsOk = true)
    (hmb : env.mountBootOk = true) (hcp : env.copyLoaderOk = false)
    (hub : env.umountBootOk = false) (hd : env.detachOk = true) :
    (new_efi_boot_disk env p l "x86_64" d e ti tf).res
      = .error (Err.calledProcessError "umount") ∧
    Event.copyLoader "EFI/Boot/BOOTX64.EFI"
      ∈ (new_efi_boot_disk env p l "x86_64" d e ti tf).trace ∧
    Event.detachLoop ∈ (new_efi_boot_disk env p l "x86_64" d e ti tf).trace := by
  rw [new_efi_eval env p l "x86_64" d e ti tf hsize hpath hfa hlo,
    mainBuildSteps_mask_x86 env env.loopDevice "1MiB" (toString (1 + e) ++ "MiB") l
      hml hm1 hb hesp hm2 hp1 hp2 hff hfe ht hmb hcp hub]
  simp [hd, runCmd_true, RunResult.tryFinally, RunResult.bind]

/-- Witness for the amended C2. -/
theorem claim_C2_release_failure_masks_witness :
    ((256 : Int) + 1 < 512 ∧
      ({ envOk with copyLoaderOk := false, umountBootOk := false } : Env).copyLoaderOk
        = false) ∧
    (new_efi_boot_disk { envOk with copyLoaderOk := false, umountBootOk := false }
        "/tmp/w2.img" "ldr" "x86_64" 512 256 none none).res
      = .error (Err.calledProcessError "umount") :=
  ⟨⟨by decide, rfl⟩,
    (claim_C2_release_failure_masks
      { envOk with copyLoaderOk := false, umountBootOk := false } "/tmp/w2.img" "ldr"
      512 256 none none (by decide) rfl rfl rfl rfl rfl rfl rfl rfl rfl rfl rfl rfl rfl
      rfl rfl rfl rfl).1⟩

theorem extractedNames_nil : extractedNames [] = [] := rfl

theorem extractedNames_createImage (s : String) (t : List Event) :
    extractedNames (Event.createImage s :: t) = extractedNames t := rfl

theorem extractedNames_attachLoop (t : List Event) :
    extractedNames (Event.attachLoop :: t) = extractedNames t := rfl

theorem extractedNames_mklabelGpt (t : List Event) :
    extractedNames (Event.mklabelGpt :: t) = extractedNames t := rfl

theorem extractedNames_mkpartEfi (s1 s2 : String) (t : List Event) :
    extractedNames (Event.mkpartEfi s1 s2 :: t) = extractedNames t := rfl

theorem extractedNames_setBootFlag (t : List Event) :
    extractedNames (Event.setBootFlag :: t) = extractedNames t := rfl

theorem extractedNames_setEspFlag (t : List Event) :
    extractedNames (Event.setEspFlag :: t) = extractedNames t := rfl

theorem extractedNames_mkpartRoot (s1 s2 : String) (t : List Event) :
    extractedNames (Event.mkpartRoot s1 s2 :: t) = extractedNames t := rfl

theorem extractedNames_sleepPartscan (t : List Event) :
    extractedNames (Event.sleepPartscan :: t) = extractedNames t := rfl

theorem extractedNames_formatFat (t : List Event) :
    extractedNames (Event.formatFat :: t) = extractedNames t := rfl

theorem extractedNames_formatExt4 (t : List Event) :
    extractedNames (Event.formatExt4 :: t) = extractedNames t := rfl

theorem extractedNames_setExt4Uuid (t : List Event) :
    extractedNames (Event.setExt4Uuid :: t) = extractedNames t := rfl

theorem extractedNames_mountBoot (t : List Event) :
    extractedNames (Event.mountBoot :: t) = extractedNames t := rfl

theorem extractedNames_makeBootDir (t : List Event) :
    extractedNames (Event.makeBootDir :: t) = extractedNames t := rfl

theorem extractedNames_copyLoader (s : String) (t : List Event) :
    extractedNames (Event.copyLoader s :: t) = extractedNames t := rfl

theorem extractedNames_umountBoot (t : List Event) :
    extractedNames (Event.umountBoot :: t) = extractedNames t := rfl

theorem extractedNames_mountRoot (t : List Event) :
    extractedNames (Event.mountRoot :: t) = extractedNames t := rfl

theorem extractedNames_umountRoot (t : List Event) :
    extractedNames (Event.umountRoot :: t) = extractedNames t := rfl

theorem extractedNames_detachLoop (t : List Event) :
    extractedNames (Event.detachLoop :: t) = extractedNames t := rfl

/-- C5: with a reachable layers directory and all commands succeeding, the
archives extracted — in order — are exactly the discovered `*.cpio.gz` paths,
sorted lexicographically by full path and restricted to those whose FILE NAME
(the basename, `layer.name` in the source) contains `noarch` or the target
architecture; in the three-file arm64 scenario the run extracts exactly
`a-noarch.cpio.gz` then `b-arm64.cpio.gz`, and a file in an `arm64`-named
directory whose basename matches neither tag is skipped. -/
theorem claim_C5_layer_selection (env : Env) (p l arch : String) (d e : Int)
    (ti tf : Option String)
    (harch : arch = "x86_64" ∨ arch = "arm64")
    (hsize : e + 1 < d) (hpath : env.imagePathExists = false)
    (hfa : env.fallocateOk = true) (hlo : env.losetupOk = true)
    (hml : env.mklabelOk = true) (hm1 : env.mkpartEfiOk = true) (hb : env.setBootOk = true)
    (hesp : env.setEspOk = true) (hm2 : env.mkpartRootOk = true)
    (hp1 : env.part1Exists = true) (hp2 : env.part2Exists = true)
    (hff : env.mkfsFatOk = true) (hfe : env.mkfsExt4Ok = true) (ht : env.tune2fsOk = true)
    (hmb : env.mountBootOk = true) (hcp : env.copyLoaderOk = true)
    (hub : env.umountBootOk = true)
    (hmr : env.mountRootOk = true) (hld : env.layersDirExists = true)
    (hex : ∀ f, env.extractOk f = true) (hur : env.umountRootOk = true)
    (hd : env.detachOk = true) :
    extractedNames (new_efi_boot_disk env p l arch d e ti tf).trace
      = (sortStrings env.layerFiles).filter
          (fun n => strContains (baseName n) "noarch" || strContains (baseName n) arch) ∧
    extractedNames (new_efi_boot_disk
        { envOk with layerFiles := ["b-x86_64.cpio.gz", "a-noarch.cpio.gz", "b-arm64.cpio.gz"] }
        "/tmp/disk.img" "Image" "arm64" 512 256 none none).trace
      = ["a-noarch.cpio.gz", "b-arm64.cpio.gz"] ∧
    extractedNames (new_efi_boot_disk
        { envOk with layerFiles := ["sub-arm64/zz.cpio.gz", "a-noarch.cpio.gz"] }
        "/tmp/disk.img" "Image" "arm64" 512 256 none none).trace
      = ["a-noarch.cpio.gz"] := by
  refine ⟨?_, by decide, by decide⟩
  · rw [new_efi_eval env p l arch d e ti tf hsize hpath hfa hlo]
    rcases harch with rfl | rfl
    · rw [mainBuildSteps_eval env env.loopDevice "1MiB" (toString (1 + e) ++ "MiB") l "x86_64"
        ⟨.ok (), [Event.mountBoot, Event.makeBootDir,
          Event.copyLoader "EFI/Boot/BOOTX64.EFI", Event.umountBoot]⟩ _
        hml hm1 hb hesp hm2 hp1 hp2 hff hfe ht
        (fill_boot_all_ok_x86 env (env.loopDevice ++ "p1") l hmb hcp hub) rfl
        (fill_ext4_all_ok env (env.loopDevice ++ "p2") "x86_64" hmr hld hex hur)]
      simp [hd, runCmd_true, RunResult.tryFinally, RunResult.bind,
        extractedNames_append, extractedNames_map_extract, extractedNames_convertStage,
        extractedNames_nil, extractedNames_createImage, extractedNames_attachLoop,
        extractedNames_mklabelGpt, extractedNames_mkpartEfi, extractedNames_setBootFlag,
        extractedNames_setEspFlag, extractedNames_mkpartRoot, extractedNames_sleepPartscan,
        extractedNames_formatFat, extractedNames_formatExt4, extractedNames_setExt4Uuid,
        extractedNames_mountBoot, extractedNames_makeBootDir, extractedNames_copyLoader,
        extractedNames_umountBoot, extractedNames_mountRoot, extractedNames_umountRoot,
        extractedNames_detachLoop]
    · rw [mainBuildSteps_eval env env.loopDevice "1MiB" (toString (1 + e) ++ "MiB") l "arm64"
        ⟨.ok (), [Event.mountBoot, Event.makeBootDir,
          Event.copyLoader "EFI/Boot/BOOTAA64.EFI", Event.umountBoot]⟩ _
        hml hm1 hb hesp hm2 hp1 hp2 hff hfe ht
        (fill_boot_all_ok_arm env (env.loopDevice ++ "p1") l hmb hcp hub) rfl
        (fill_ext4_all_ok env (env.loopDevice ++ "p2") "arm64" hmr hld hex hur)]
      simp [hd, runCmd_true, RunResult.tryFinally, RunResult.bind,
        extractedNames_append, extractedNames_map_extract, extractedNames_convertStage,
        extractedNames_nil, extractedNames_createImage, extractedNames_attachLoop,
        extractedNames_mklabelGpt, extractedNames_mkpartEfi, extractedNames_setBootFlag,
        extractedNames_setEspFlag, extractedNames_mkpartRoot, extractedNames_sleepPartscan,
        extractedNames_formatFat, extractedNames_formatExt4, extractedNames_setExt4Uuid,
        extractedNames_mountBoot, extractedNames_makeBootDir, extractedNames_copyLoader,
        extractedNames_umountBoot, extractedNames_mountRoot, extractedNames_umountRoot,
        extractedNames_detachLoop]

/-- Witness for C5: the general selection law applied to a concrete run. -/
theorem claim_C5_layer_selection_witness :
    (("arm64" : String) = "x86_64" ∨ ("arm64" : String) = "arm64") ∧
    extractedNames (new_efi_boot_disk
        { envOk with layerFiles := ["x.cpio.gz", "y-noarch.cpio.gz"] }
        "/tmp/w5.img" "Image" "arm64" 512 256 none none).trace
      = (sortStrings ["x.cpio.gz", "y-noarch.cpio.gz"]).filter
          (fun n => strContains (baseName n) "noarch" || strContains (baseName n) "arm64") :=
  ⟨Or.inr rfl,
    (claim_C5_layer_selection { envOk with layerFiles := ["x.cpio.gz", "y-noarch.cpio.gz"] }
      "/tmp/w5.img" "Image" "arm64" 512 256 none none (Or.inr rfl) (by decide) rfl rfl rfl
      rfl rfl rfl rfl rfl rfl rfl rfl rfl rfl rfl rfl rfl rfl rfl (fun _ => rfl) rfl rfl).1⟩

/-- C9: a missing layers directory, or one in which no archive's file name
(basename) matches the noarch-or-architecture selection predicate, is not
fatal: nothing is extracted, the root mount is still released, and the build
completes successfully. -/
theorem claim_C9_layers_optional (env : Env) (p l arch : String) (d e : Int)
    (harch : arch = "x86_64" ∨ arch = "arm64")
    (hsize : e + 1 < d) (hpath : env.imagePathExists = false)
    (hfa : env.fallocateOk = true) (hlo : env.losetupOk = true)
    (hml : env.mklabelOk = true) (hm1 : env.mkpartEfiOk = true) (hb : env.setBootOk = true)
    (hesp : env.setEspOk = true) (hm2 : env.mkpartRootOk = true)
    (hp1 : env.part1Exists = true) (hp2 : env.part2Exists = true)
    (hff : env.mkfsFatOk = true) (hfe : env.mkfsExt4Ok = true) (ht : env.tune2fsOk = true)
    (hmb : env.mountBootOk = true) (hcp : env.copyLoaderOk = true)
    (hub : env.umountBootOk = true)
    (hmr : env.mountRootOk = true) (hex : ∀ f, env.extractOk f = true)
    (hur : env.umountRootOk = true) (hd : env.detachOk = true)
    (hnone : env.layersDirExists = false ∨
      (sortStrings env.layerFiles).filter
        (fun n => strContains (baseName n) "noarch" || strContains (baseName n) arch)
        = []) :
    (new_efi_boot_disk env p l arch d e none none).res = .ok () ∧
    extractedNames (new_efi_boot_disk env p l arch d e none none).trace = [] ∧
    Event.umountRoot ∈ (new_efi_boot_disk env p l arch d e none none).trace ∧
    Event.detachLoop ∈ (new_efi_boot_disk env p l arch d e none none).trace := by
  have hroot : fill_ext4_partition env (env.loopDevice ++ "p2") arch
      = ⟨.ok (), [Event.mountRoot, Event.umountRoot]⟩ := by
    cases hldv : env.layersDirExists
    · exact fill_ext4_no_dir env _ arch hmr hldv hur
    · rcases hnone with hnd | hflt
      · rw [hldv] at hnd; exact absurd hnd (by simp)
      · rw [fill_ext4_all_ok env _ arch hmr hldv hex hur, hflt]
        rfl
  rw [new_efi_eval env p l arch d e none none hsize hpath hfa hlo]
  rcases harch with rfl | rfl
  · rw [mainBuildSteps_eval env env.loopDevice "1MiB" (toString (1 + e) ++ "MiB") l "x86_64"
      ⟨.ok (), [Event.mountBoot, Event.makeBootDir,
        Event.copyLoader "EFI/Boot/BOOTX64.EFI", Event.umountBoot]⟩ _
      hml hm1 hb hesp hm2 hp1 hp2 hff hfe ht
      (fill_boot_all_ok_x86 env (env.loopDevice ++ "p1") l hmb hcp hub) rfl hroot]
    simp [hd, runCmd_true, RunResult.tryFinally, RunResult.bind, convertStage, Pure.pure,
      extractedNames_append, extractedNames_nil, extractedNames_createImage,
      extractedNames_attachLoop, extractedNames_mklabelGpt, extractedNames_mkpartEfi,
      extractedNames_setBootFlag, extractedNames_setEspFlag, extractedNames_mkpartRoot,
      extractedNames_sleepPartscan, extractedNames_formatFat, extractedNames_formatExt4,
      extractedNames_setExt4Uuid, extractedNames_mountBoot, extractedNames_makeBootDir,
      extractedNames_copyLoader, extractedNames_umountBoot, extractedNames_mountRoot,
      extractedNames_umountRoot, extractedNames_detachLoop]
  · rw [mainBuildSteps_eval env env.loopDevice "1MiB" (toString (1 + e) ++ "MiB") l "arm64"
      ⟨.ok (), [Event.mountBoot, Event.makeBootDir,
        Event.copyLoader "EFI/Boot/BOOTAA64.EFI", Event.umountBoot]⟩ _
      hml hm1 hb hesp hm2 hp1 hp2 hff hfe ht
      (fill_boot_all_ok_arm env (env.loopDevice ++ "p1") l hmb hcp hub) rfl hroot]
    simp [hd, runCmd_true, RunResult.tryFinally, RunResult.bind, convertStage, Pure.pure,
      extractedNames_append, extractedNames_nil, extractedNames_createImage,
      extractedNames_attachLoop, extractedNames_mklabelGpt, extractedNames_mkpartEfi,
      extractedNames_setBootFlag, extractedNames_setEspFlag, extractedNames_mkpartRoot,
      extractedNames_sleepPartscan, extractedNames_formatFat, extractedNames_formatExt4,
      extractedNames_setExt4Uuid, extractedNames_mountBoot, extractedNames_makeBootDir,
      extractedNames_copyLoader, extractedNames_umountBoot, extractedNames_mountRoot,
      extractedNames_umountRoot, extractedNames_detachLoop]

/-- Witness for C9: a run with a missing layers directory still succeeds. -/
theorem claim_C9_layers_optional_witness :
    ((256 : Int) + 1 < 512 ∧
      ({ envOk with layersDirExists := false } : Env).layersDirExists = false) ∧
    (new_efi_boot_disk { envOk with layersDirExists := false } "/tmp/w9.img" "Image"
        "arm64" 512 256 none none).res = .ok () :=
  ⟨⟨by decide, rfl⟩,
    (claim_C9_layers_optional { envOk with layersDirExists := false } "/tmp/w9.img" "Image"
      "arm64" 512 256 (Or.inr rfl) (by decide) rfl rfl rfl rfl rfl rfl rfl rfl rfl rfl rfl
      rfl rfl rfl rfl rfl rfl (fun _ => rfl) rfl rfl (Or.inl rfl)).1⟩

theorem create_partitions_missing_p1 (env : Env) (ld s1 s2 : String)
    (hml : env.mklabelOk = true) (hm1 : env.mkpartEfiOk = true) (hb : env.setBootOk = true)
    (hesp : env.setEspOk = true) (hm2 : env.mkpartRootOk = true)
    (hp1 : env.part1Exists = false) :
    create_partitions env ld s1 s2
      = ⟨.error (Err.runtimeError
            ("Expected partition device " ++ (ld ++ "p1") ++ " does not exist.")),
         [Event.mklabelGpt, Event.mkpartEfi s1 s2, Event.setBootFlag, Event.setEspFlag,
          Event.mkpartRoot s2 "100%", Event.sleepPartscan]⟩ := by
  unfold create_partitions
  simp [hml, hm1, hb, hesp, hm2, hp1, runCmd_true, emitEvent, Bind.bind,
    RunResult.bind, throwErr]

theorem create_partitions_missing_p2 (env : Env) (ld s1 s2 : String)
    (hml : env.mklabelOk = true) (hm1 : env.mkpartEfiOk = true) (hb : env.setBootOk = true)
    (hesp : env.setEspOk = true) (hm2 : env.mkpartRootOk = true)
    (hp1 : env.part1Exists = true) (hp2 : env.part2Exists = false) :
    create_partitions env ld s1 s2
      = ⟨.error (Err.runtimeError
            ("Expected partition device " ++ (ld ++ "p2") ++ " does not exist.")),
         [Event.mklabelGpt, Event.mkpartEfi s1 s2, Event.setBootFlag, Event.setEspFlag,
          Event.mkpartRoot s2 "100%", Event.sleepPartscan]⟩ := by
  unfold create_partitions
  simp [hml, hm1, hb, hesp, hm2, hp1, hp2, runCmd_true, emitEvent, Bind.bind,
    RunResult.bind, throwErr]

theorem mainBuildSteps_create_err (env : Env) (ld s1 s2 l arch : String) (er : Err)
    (t : List Event) (hc : create_partitions env ld s1 s2 = ⟨.error er, t⟩) :
    mainBuildSteps env ld s1 s2 l arch = ⟨.error er, t⟩ := by
  unfold mainBuildSteps
  rw [hc]
  rfl

/-- C10: if a partition device node is absent after the fixed delay, the run
fails with a `RuntimeError` naming exactly that node, and the loop device is
still detached (the detach event is in the trace of the failing run). -/
theorem claim_C10_missing_partition_node (env : Env) (p l arch : String) (d e : Int)
    (ti tf : Option String)
    (hsize : e + 1 < d) (hpath : env.imagePathExists = false)
    (hfa : env.fallocateOk = true) (hlo : env.losetupOk = true)
    (hml : env.mklabelOk = true) (hm1 : env.mkpartEfiOk = true) (hb : env.setBootOk = true)
    (hesp : env.setEspOk = true) (hm2 : env.mkpartRootOk = true)
    (hd : env.detachOk = true) :
    (env.part1Exists = false →
      (new_efi_boot_disk env p l arch d e ti tf).res
        = .error (Err.runtimeError
            ("Expected partition device " ++ (env.loopDevice ++ "p1") ++ " does not exist.")) ∧
      Event.detachLoop ∈ (new_efi_boot_disk env p l arch d e ti tf).trace) ∧
    (env.part1Exists = true → env.part2Exists = false →
      (new_efi_boot_disk env p l arch d e ti tf).res
        = .error (Err.runtimeError
            ("Expected partition device " ++ (env.loopDevice ++ "p2") ++ " does not exist.")) ∧
      Event.detachLoop ∈ (new_efi_boot_disk env p l arch d e ti tf).trace) := by
  constructor
  · intro hp1
    rw [new_efi_eval env p l arch d e ti tf hsize hpath hfa hlo,
      mainBuildSteps_create_err env env.loopDevice "1MiB" (toString (1 + e) ++ "MiB") l arch
        _ _ (create_partitions_missing_p1 env env.loopDevice _ _ hml hm1 hb hesp hm2 hp1)]
    simp [hd, runCmd_true, RunResult.tryFinally, RunResult.bind]
  · intro hp1 hp2
    rw [new_efi_eval env p l arch d e ti tf hsize hpath hfa hlo,
      mainBuildSteps_create_err env env.loopDevice "1MiB" (toString (1 + e) ++ "MiB") l arch
        _ _ (create_partitions_missing_p2 env env.loopDevice _ _ hml hm1 hb hesp hm2 hp1 hp2)]
    simp [hd, runCmd_true, RunResult.tryFinally, RunResult.bind]

/-- Witness for C10: a run whose first partition node never appears fails
naming `/dev/loop0p1` and still detaches the loop device. -/
theorem claim_C10_missing_partition_node_witness :
    (({ envOk with part1Exists := false } : Env).part1Exists = false ∧ (256 : Int) + 1 < 512) ∧
    (new_efi_boot_disk { envOk with part1Exists := false } "/tmp/w10.img" "ldr" "x86_64"
        512 256 none none).res
      = .error (Err.runtimeError "Expected partition device /dev/loop0p1 does not exist.") ∧
    Event.detachLoop ∈ (new_efi_boot_disk { envOk with part1Exists := false } "/tmp/w10.img"
        "ldr" "x86_64" 512 256 none none).trace := by
  have h := (claim_C10_missing_partition_node { envOk with part1Exists := false }
    "/tmp/w10.img" "ldr" "x86_64" 512 256 none none (by decide) rfl rfl rfl rfl rfl rfl
    rfl rfl rfl).1 rfl
  exact ⟨⟨rfl, by decide⟩, by simpa using h⟩
